import Mathlib

/-!
Formal model of the server-dashboard rule engine and anomaly detector.

The definitions below are shallow embeddings of the Python sources
`src/app/anomaly_detector.py` and `src/ui/utils/alert_rules.py` /
`src/ui/utils/alert_analyzer.py`.  Floating-point values are modelled by
exact rationals; `numpy`'s square root (used inside `np.std`) is taken as
an explicit function parameter `sq : ℚ → ℚ`, since exact square roots are
not rational.  Python exceptions (IndexError / KeyError) are modelled by
`Option`, with `none` standing for a raised exception.  String fields that
only carry formatted display text (the `message` fields and the metrics
summaries) are omitted; no property below depends on them.
-/

/-- Per-metric detector thresholds, mirroring `AnomalyDetector.__init__`. -/
structure Thresholds where
  z_score_threshold : ℚ
  rate_of_change_threshold : ℚ
  critical_level : ℚ
deriving DecidableEq, Repr

def cpuThresholds : Thresholds :=
  { z_score_threshold := 3, rate_of_change_threshold := 20, critical_level := 80 }

def memThresholds : Thresholds :=
  { z_score_threshold := 3, rate_of_change_threshold := 15, critical_level := 90 }

/-- `self.thresholds.get(metric, self.thresholds['cpu.usage.average'])`. -/
def getThresholds (metric : String) : Thresholds :=
  if metric = "cpu.usage.average" then cpuThresholds
  else if metric = "memory.usage.average" then memThresholds
  else cpuThresholds

/-- `np.mean` over a list (population mean; `0` on the empty list, where
pandas/numpy would produce NaN — no claim depends on that value). -/
def listMean (l : List ℚ) : ℚ := l.sum / l.length

/-- Population variance, i.e. the square of `np.std` (ddof = 0). -/
def listVariance (l : List ℚ) : ℚ :=
  (l.map (fun x => (x - listMean l) * (x - listMean l))).sum / l.length

/-- One batch anomaly record, mirroring the dicts appended by
`detect_anomalies` (the formatted `message` field is omitted). -/
structure AnomalyRec where
  timestamp : ℕ
  actual : ℚ
  predicted : ℚ
  anomaly_score : ℚ
  severity : String
  type : String
deriving DecidableEq, Repr

/-- `AnomalyDetector._get_severity`. -/
def get_severity (z : ℚ) : String :=
  if 4 ≤ z then "critical"
  else if 3 ≤ z then "high"
  else if 2 ≤ z then "medium"
  else "low"

/-- The body of the `for i in range(len(actual_values))` loop of
`detect_anomalies`: the records appended for index `i`, or `none` when
`timestamps[i]` raises IndexError.  The critical-level check
short-circuits the remaining checks via `continue`. -/
def detectStep (sq : ℚ → ℚ) (th : Thresholds)
    (actual_values predicted_values : List ℚ) (timestamps : List ℕ)
    (i : ℕ) : Option (List AnomalyRec) := do
  let a := actual_values.getD i 0
  let p := predicted_values.getD i 0
  let timestamp ← timestamps.get? i
  if th.critical_level ≤ a then
    pure [{ timestamp := timestamp, actual := a, predicted := p,
            anomaly_score := 1, severity := "critical", type := "critical_level" }]
  else
    let zRecs :=
      if 0 < i then
        let window := (actual_values.take i).drop (i - 10)
        if 3 ≤ window.length then
          let mean := listMean window
          let std := sq (listVariance window)
          if 0 < std then
            let z := |a - mean| / std
            if th.z_score_threshold < z then
              [{ timestamp := timestamp, actual := a, predicted := p,
                 anomaly_score := min (z / 5) 1, severity := get_severity z,
                 type := "z_score" }]
            else []
          else []
        else []
      else []
    let predRecs :=
      if 0 < p then
        let relative_error := |a - p| / p * 100
        if 30 < relative_error then
          [{ timestamp := timestamp, actual := a, predicted := p,
             anomaly_score := min (relative_error / 100) 1,
             severity := if 50 < relative_error then "high" else "medium",
             type := "prediction_error" }]
        else []
      else []
    let rateRecs :=
      if 0 < i then
        let rate_of_change := |a - actual_values.getD (i - 1) 0|
        if th.rate_of_change_threshold < rate_of_change then
          [{ timestamp := timestamp, actual := a, predicted := p,
             anomaly_score := min (rate_of_change / 50) 1,
             severity := if 30 < rate_of_change then "high" else "medium",
             type := "rate_of_change" }]
        else []
      else []
    pure (zRecs ++ predRecs ++ rateRecs)

/-- Sequencing of the loop iterations of `detect_anomalies`: records are
appended in index order, and a raised exception aborts the whole call. -/
def detectLoop (sq : ℚ → ℚ) (th : Thresholds)
    (actual_values predicted_values : List ℚ) (timestamps : List ℕ) :
    List ℕ → Option (List AnomalyRec)
  | [] => some []
  | i :: rest => do
    let rs ← detectStep sq th actual_values predicted_values timestamps i
    let rest2 ← detectLoop sq th actual_values predicted_values timestamps rest
    pure (rs ++ rest2)

/-- `AnomalyDetector.detect_anomalies`.  Only the `actual`/`predicted`
lengths are compared; `timestamps` is indexed without any length check. -/
def detect_anomalies (sq : ℚ → ℚ) (actual_values predicted_values : List ℚ)
    (timestamps : List ℕ) (metric : String) : Option (List AnomalyRec) :=
  if actual_values.length ≠ predicted_values.length then some []
  else
    detectLoop sq (getThresholds metric) actual_values predicted_values timestamps
      (List.range actual_values.length)

/-- One realtime anomaly record, mirroring the dicts returned by
`detect_realtime_anomaly` (the `message` field is omitted). -/
structure RealtimeRec where
  severity : String
  type : String
  score : ℚ
deriving DecidableEq, Repr

/-- `AnomalyDetector.detect_realtime_anomaly`. -/
def detect_realtime_anomaly (sq : ℚ → ℚ) (current_value : ℚ)
    (historical_values : List ℚ) (predicted_value : Option ℚ) (metric : String) :
    Option RealtimeRec :=
  if historical_values.length < 10 then none
  else
    let th := getThresholds metric
    if th.critical_level ≤ current_value then
      some { severity := "critical", type := "critical_level", score := 1 }
    else
      let mean := listMean historical_values
      let std := sq (listVariance historical_values)
      let zOpt : Option RealtimeRec :=
        if 0 < std then
          let z := |current_value - mean| / std
          if th.z_score_threshold < z then
            some { severity := get_severity z, type := "statistical",
                   score := min (z / 5) 1 }
          else none
        else none
      match zOpt with
      | some r => some r
      | none =>
        match predicted_value with
        | some pv =>
          let relative_error := if 0 < pv then |current_value - pv| / pv * 100 else 0
          if 30 < relative_error then
            some { severity := if 50 < relative_error then "high" else "medium",
                   type := "prediction_error", score := min (relative_error / 100) 1 }
          else none
        | none => none

/-- `AlertSeverity` from `alert_rules.py`. -/
inductive AlertSeverity where
  | critical
  | warning
  | info
deriving DecidableEq, Repr

/-- `AlertRule` from `alert_rules.py`.  The `thresholds` dict is modelled
as an association list over its string keys. -/
structure AlertRule where
  name : String
  metric : String
  condition : String
  thresholds : List (String × ℚ)
  severity : AlertSeverity
  description : String
  time_percentage : ℚ
deriving DecidableEq, Repr

/-- Dictionary lookup, `d[k]` (the default rule set below always carries
the keys accessed, so the KeyError case is unreachable and defaulted). -/
def dictGet (d : List (String × ℚ)) (k : String) : ℚ :=
  ((d.find? (fun p => p.1 = k)).map Prod.snd).getD 0

/-- `d.get(k, v)`. -/
def dictGetD (d : List (String × ℚ)) (k : String) (v : ℚ) : ℚ :=
  ((d.find? (fun p => p.1 = k)).map Prod.snd).getD v

/-- The `high_cpu_usage` overload rule of `_get_default_rules`. -/
def highCpuRule : AlertRule :=
  { name := "high_cpu_usage", metric := "cpu.usage.average", condition := "gt",
    thresholds := [("high", 85)], severity := .critical,
    description := "cpu usage above 85 percent", time_percentage := 1/5 }

/-- The `high_memory_usage` overload rule of `_get_default_rules`. -/
def highMemRule : AlertRule :=
  { name := "high_memory_usage", metric := "mem.usage.average", condition := "gt",
    thresholds := [("high", 80)], severity := .critical,
    description := "memory usage above 80 percent", time_percentage := 1/5 }

/-- The `low_cpu_usage` idle rule of `_get_default_rules`. -/
def lowCpuRule : AlertRule :=
  { name := "low_cpu_usage", metric := "cpu.usage.average", condition := "lt",
    thresholds := [("low", 15)], severity := .warning,
    description := "cpu usage below 15 percent", time_percentage := 4/5 }

/-- `AlertSystem._get_default_rules` (the two commented-out
`cpu.ready.summation` rules of the source are likewise absent). -/
def defaultRules : List AlertRule :=
  [ highCpuRule,
    highMemRule,
    lowCpuRule,
    { name := "low_memory_usage", metric := "mem.usage.average", condition := "lt",
      thresholds := [("low", 25)], severity := .warning,
      description := "memory usage below 25 percent", time_percentage := 4/5 },
    { name := "low_network_usage", metric := "net.usage.average", condition := "lt",
      thresholds := [("low", 5)], severity := .warning,
      description := "network usage below 5 percent", time_percentage := 4/5 },
    { name := "normal_cpu_range", metric := "cpu.usage.average", condition := "range",
      thresholds := [("low", 15), ("high", 85)], severity := .info,
      description := "cpu in normal range 15-85", time_percentage := 1 },
    { name := "normal_memory_range", metric := "mem.usage.average", condition := "range",
      thresholds := [("low", 25), ("high", 85)], severity := .info,
      description := "memory in normal range 25-85", time_percentage := 1 },
    { name := "normal_network_range", metric := "net.usage.average", condition := "range",
      thresholds := [("low", 6), ("high", 85)], severity := .info,
      description := "network in normal range 6-85", time_percentage := 1 } ]

/-- A pandas DataFrame of per-server samples: the `timestamp` column plus
the metric columns.  In pandas all columns share the frame's row count;
`ServerFrameWf` states that invariant. -/
structure ServerFrame where
  timestamp : List ℕ
  cols : List (String × List ℚ)
deriving DecidableEq, Repr

/-- `metric in server_data.columns` / `server_data[metric]`. -/
def ServerFrame.getCol (f : ServerFrame) (m : String) : Option (List ℚ) :=
  (f.cols.find? (fun p => p.1 = m)).map Prod.snd

/-- `server_data.empty` (no rows). -/
def ServerFrame.isEmpty (f : ServerFrame) : Bool := f.timestamp.isEmpty

/-- Well-formedness guaranteed by pandas: every column has exactly one
value per row. -/
def ServerFrameWf (f : ServerFrame) : Prop :=
  ∀ p ∈ f.cols, p.2.length = f.timestamp.length

/-- `server_data['timestamp'].iloc[-1]`. -/
def ServerFrame.lastTimestamp (f : ServerFrame) : ℕ := f.timestamp.getLastD 0

/-- An `Alert` from `alert_rules.py` (the formatted `message` is omitted). -/
structure Alert where
  rule : AlertRule
  value : ℚ
  timestamp : ℕ
  server : String
deriving DecidableEq, Repr

/-- `sorted(data)` for the quantile computation. -/
def listSort (l : List ℚ) : List ℚ := l.mergeSort (fun a b => a ≤ b)

/-- `pandas.Series.quantile` with linear interpolation (the default):
the value at fractional position `(n - 1) * q` of the sorted data. -/
def seriesQuantile (l : List ℚ) (q : ℚ) : ℚ :=
  let s := listSort l
  let pos : ℚ := (l.length - 1 : ℕ) * q
  let lo : ℕ := pos.floor.toNat
  let frac : ℚ := pos - pos.floor
  s.getD lo 0 + frac * (s.getD (lo + 1) (s.getD lo 0) - s.getD lo 0)

/-- `AlertSystem._get_top_percentile_data`. -/
def topPercentileData (data : List ℚ) (percentile : ℚ) : List ℚ :=
  let threshold := seriesQuantile data (percentile / 100)
  data.filter (fun x => decide (threshold ≤ x))

/-- One iteration of the `for rule in self.rules` loop of
`AlertSystem.analyze_server_status`: the alerts (zero or one) this rule
contributes.  An absent metric is skipped via `continue`. -/
def evalRule (f : ServerFrame) (server_name : String) (rule : AlertRule) : List Alert :=
  match f.getCol rule.metric with
  | none => []
  | some metric_data =>
    let total_intervals := metric_data.length
    let required_intervals : ℕ := ((total_intervals : ℚ) * rule.time_percentage).floor.toNat
    if rule.condition = "gt" then
      let high := dictGet rule.thresholds "high"
      let exceeding := metric_data.filter (fun x => decide (high < x))
      if required_intervals ≤ exceeding.length then
        [{ rule := rule, value := listMean exceeding,
           timestamp := f.lastTimestamp, server := server_name }]
      else []
    else if rule.condition = "lt" then
      let low := dictGet rule.thresholds "low"
      let below := metric_data.filter (fun x => decide (x < low))
      if required_intervals ≤ below.length then
        [{ rule := rule, value := listMean below,
           timestamp := f.lastTimestamp, server := server_name }]
      else []
    else if rule.condition = "range" then
      let low := dictGet rule.thresholds "low"
      let high := dictGet rule.thresholds "high"
      let in_range := metric_data.filter (fun x => decide (low ≤ x ∧ x ≤ high))
      if rule.severity = .info ∧ in_range.length = total_intervals then
        [{ rule := rule, value := listMean metric_data,
           timestamp := f.lastTimestamp, server := server_name }]
      else if rule.severity ≠ .info ∧ required_intervals ≤ in_range.length then
        [{ rule := rule, value := listMean metric_data,
           timestamp := f.lastTimestamp, server := server_name }]
      else []
    else if rule.condition = "percentile_gt" then
      let percentile := dictGetD rule.thresholds "percentile" 80
      let top_data := topPercentileData metric_data percentile
      if top_data ≠ [] ∧ dictGet rule.thresholds "high" < listMean top_data then
        [{ rule := rule, value := listMean top_data,
           timestamp := f.lastTimestamp, server := server_name }]
      else []
    else []

/-- The overload criteria list of `_determine_server_status`:
(metric, threshold, time percentage). -/
def overloadCriteria : List (String × ℚ × ℚ) :=
  [("cpu.usage.average", 85, 1/5), ("mem.usage.average", 80, 1/5)]

/-- The underload criteria list of `_determine_server_status`. -/
def underloadCriteria : List (String × ℚ × ℚ) :=
  [("cpu.usage.average", 15, 4/5), ("mem.usage.average", 25, 4/5),
   ("net.usage.average", 5, 4/5)]

/-- Server status enum. -/
inductive ServerStatus where
  | overloaded
  | underloaded
  | normal
  | unknown
deriving DecidableEq, Repr

/-- `AlertSystem._determine_server_status` (the `alerts` parameter is
unused in the source exactly as here): overload requires a strictly
greater than 20 percent share of exceeding samples; the underload flag
starts true and a metric absent from the columns is skipped, leaving the
flag untouched. -/
def determineServerStatus (_alerts : List Alert) (f : ServerFrame) : ServerStatus :=
  if overloadCriteria.any (fun c =>
      match f.getCol c.1 with
      | some data =>
        decide (c.2.2 < ((data.filter (fun x => decide (c.2.1 < x))).length : ℚ) / data.length)
      | none => false) then
    .overloaded
  else if underloadCriteria.all (fun c =>
      match f.getCol c.1 with
      | some data =>
        decide (c.2.2 ≤ ((data.filter (fun x => decide (x < c.2.1))).length : ℚ) / data.length)
      | none => true) then
    .underloaded
  else
    .normal

/-- The result dict of `analyze_server_status` (the `metrics_summary`
display field is omitted). -/
structure AnalysisResult where
  status : ServerStatus
  alerts : List Alert
deriving DecidableEq, Repr

/-- `AlertSystem` instance state: the rules, the accumulated
`alerts_history` and the network capacity. -/
structure AlertSystem where
  rules : List AlertRule
  alertsHistory : List Alert
  networkCapacityMbps : ℚ
deriving DecidableEq, Repr

/-- The freshly constructed `AlertSystem()` singleton. -/
def defaultSystem : AlertSystem :=
  { rules := defaultRules, alertsHistory := [], networkCapacityMbps := 1000 }

/-- `AlertSystem.analyze_server_status`, as a state transformer: returns
the result together with the updated system state (every emitted alert is
appended to `alerts_history`). -/
def AlertSystem.analyze_server_status (sys : AlertSystem) (server_data : ServerFrame)
    (server_name : String) : AnalysisResult × AlertSystem :=
  if server_data.isEmpty then
    ({ status := .unknown, alerts := [] }, sys)
  else
    let alerts := sys.rules.flatMap (fun r => evalRule server_data server_name r)
    let status := determineServerStatus alerts server_data
    ({ status := status, alerts := alerts },
     { sys with alertsHistory := sys.alertsHistory ++ alerts })

/-- An alert from `alert_analyzer.py` (its `Alert` class; the formatted
`message` is omitted).  `metric_name` stores the rule name, exactly as in
the source. -/
structure AnalyzerAlert where
  metric_name : String
  value : ℚ
  threshold : List (String × ℚ)
  severity : AlertSeverity
  timestamp : ℕ
  server_name : String
deriving DecidableEq, Repr

/-- The `default_thresholds` dict of `analyze_server_alerts`. -/
def analyzerDefaultThresholds : List (String × ℚ) :=
  [("cpu_overload", 85), ("memory_overload", 80), ("cpu_ready_overload", 10),
   ("cpu_idle", 15), ("memory_idle", 25), ("network_idle", 5),
   ("cpu_normal_min", 15), ("cpu_normal_max", 85),
   ("memory_normal_min", 25), ("memory_normal_max", 85),
   ("network_normal_min", 6), ("network_normal_max", 85),
   ("disk_latency", 25), ("network_capacity", 1000)]

/-- `default_thresholds.update(thresholds)` followed by key lookup. -/
def mergedThresholds (custom : List (String × ℚ)) (k : String) : ℚ :=
  dictGetD custom k (dictGet analyzerDefaultThresholds k)

/-- `data[name] = vals`: replace the column when present, append it
otherwise. -/
def ServerFrame.setCol (f : ServerFrame) (name : String) (vals : List ℚ) : ServerFrame :=
  if (f.getCol name).isSome then
    { f with cols := f.cols.map (fun p => if p.1 = name then (p.1, vals) else p) }
  else
    { f with cols := f.cols ++ [(name, vals)] }

/-- One overload-style rule of `analyze_server_alerts`: triggered when the
share of samples above the threshold (the mean of the boolean series) is
at least `time_percent`. -/
def gtAlertCheck (f : ServerFrame) (lastTs : ℕ) (server : String)
    (name metric : String) (threshold time_percent : ℚ) (sev : AlertSeverity) :
    List AnalyzerAlert :=
  match f.getCol metric with
  | none => []
  | some d =>
    let exceeding := d.filter (fun x => decide (threshold < x))
    if time_percent ≤ (exceeding.length : ℚ) / d.length then
      [{ metric_name := name, value := listMean exceeding,
         threshold := [("value", threshold)], severity := sev,
         timestamp := lastTs, server_name := server }]
    else []

/-- One idle-style rule of `analyze_server_alerts`. -/
def ltAlertCheck (f : ServerFrame) (lastTs : ℕ) (server : String)
    (name metric : String) (threshold time_percent : ℚ) (sev : AlertSeverity) :
    List AnalyzerAlert :=
  match f.getCol metric with
  | none => []
  | some d =>
    let below := d.filter (fun x => decide (x < threshold))
    if time_percent ≤ (below.length : ℚ) / d.length then
      [{ metric_name := name, value := listMean below,
         threshold := [("value", threshold)], severity := sev,
         timestamp := lastTs, server_name := server }]
    else []

/-- One normal-range rule of `analyze_server_alerts`: `in_range.all()`. -/
def rangeAlertCheck (f : ServerFrame) (lastTs : ℕ) (server : String)
    (name metric : String) (lo hi : ℚ) (sev : AlertSeverity) :
    List AnalyzerAlert :=
  match f.getCol metric with
  | none => []
  | some d =>
    if d.all (fun x => decide (lo ≤ x ∧ x ≤ hi)) then
      [{ metric_name := name, value := listMean d,
         threshold := [("min", lo), ("max", hi)], severity := sev,
         timestamp := lastTs, server_name := server }]
    else []

/-- `alert_analyzer._determine_server_status` (its `data` argument is
unused in the source exactly as here). -/
def analyzerDetermineStatus (alerts : List AnalyzerAlert) (_data : ServerFrame) :
    ServerStatus :=
  if alerts.isEmpty then .normal
  else
    let critical_count :=
      (alerts.filter (fun a => decide (a.severity = AlertSeverity.critical) &&
        decide (a.metric_name ∈ ["high_cpu_usage", "high_memory_usage", "high_cpu_ready"]))).length
    if 1 ≤ critical_count then .overloaded
    else
      let warning_count :=
        (alerts.filter (fun a => decide (a.severity = AlertSeverity.warning) &&
          decide (a.metric_name ∈ ["low_cpu_usage", "low_memory_usage", "low_network_usage"]))).length
      if 3 ≤ warning_count then .underloaded
      else .normal

/-- The result dict of `analyze_server_alerts` (its `metrics_summary` and
`analysis_time` display fields are omitted). -/
structure AnalyzerResult where
  status : ServerStatus
  alerts : List AnalyzerAlert
deriving DecidableEq, Repr

/-- `alert_analyzer.analyze_server_alerts`.  The `np.random` draws used to
fill in absent auxiliary columns are taken as parameters `rReady`, `rLat`
and `rNorm`.  The unconditional reads of `data['memory_usage']` (when
synthesizing `disk_usage`) and `data['network_in_mbps']` are modelled as
`Option` binds: `none` stands for the KeyError they raise on an absent
column. -/
def analyze_server_alerts (rReady rLat rNorm : List ℚ)
    (server_data : ServerFrame) (server_name : String)
    (custom : List (String × ℚ)) (time_percent_overload time_percent_idle : ℚ) :
    Option AnalyzerResult :=
  let th := mergedThresholds custom
  if server_data.isEmpty then
    some { status := .unknown, alerts := [] }
  else do
    let data1 := if (server_data.getCol "cpu_ready_summation").isSome then server_data
      else server_data.setCol "cpu_ready_summation" rReady
    let data2 := if (data1.getCol "disk_latency").isSome then data1
      else data1.setCol "disk_latency" rLat
    let data3 ←
      if (data2.getCol "disk_usage").isSome then pure data2
      else do
        let mem ← data2.getCol "memory_usage"
        pure (data2.setCol "disk_usage" (List.zipWith (fun m r => m * (7/10) + r) mem rNorm))
    let netIn ← data3.getCol "network_in_mbps"
    let data := data3.setCol "network_usage_percent"
      (netIn.map (fun x => x / th "network_capacity" * 100))
    let lastTs := data.lastTimestamp
    let alerts :=
      gtAlertCheck data lastTs server_name "high_cpu_usage" "cpu_usage"
          (th "cpu_overload") time_percent_overload .critical
      ++ gtAlertCheck data lastTs server_name "high_memory_usage" "memory_usage"
          (th "memory_overload") time_percent_overload .critical
      ++ ltAlertCheck data lastTs server_name "low_cpu_usage" "cpu_usage"
          (th "cpu_idle") time_percent_idle .warning
      ++ ltAlertCheck data lastTs server_name "low_memory_usage" "memory_usage"
          (th "memory_idle") time_percent_idle .warning
      ++ ltAlertCheck data lastTs server_name "low_network_usage" "network_usage_percent"
          (th "network_idle") time_percent_idle .warning
      ++ rangeAlertCheck data lastTs server_name "normal_cpu_range" "cpu.usage.average"
          (th "cpu_normal_min") (th "cpu_normal_max") .info
      ++ rangeAlertCheck data lastTs server_name "normal_memory_range" "memory_usage"
          (th "memory_normal_min") (th "memory_normal_max") .info
      ++ rangeAlertCheck data lastTs server_name "normal_network_range" "net.usage.average"
          (th "network_normal_min") (th "network_normal_max") .info
      ++ gtAlertCheck data lastTs server_name "high_disk_latency" "disk_latency"
          (th "disk_latency") time_percent_overload .critical
    pure { status := analyzerDetermineStatus alerts data, alerts := alerts }

/-- The share of samples strictly above a threshold (`0` on an empty
column). -/
def exceedShare (d : List ℚ) (th : ℚ) : ℚ :=
  ((d.filter (fun x => decide (th < x))).length : ℚ) / d.length

/-- The share of samples strictly below a threshold (`0` on an empty
column). -/
def belowShare (d : List ℚ) (th : ℚ) : ℚ :=
  ((d.filter (fun x => decide (x < th))).length : ℚ) / d.length

/-- The realtime CriticalLevel check, as the claim describes it. -/
def rtCriticalCheck (th : Thresholds) (current : ℚ) : Option RealtimeRec :=
  if th.critical_level ≤ current then
    some { severity := "critical", type := "critical_level", score := 1 }
  else none

/-- The realtime StatisticalZScore check, as the claim describes it: mean
and standard deviation of the entire history (a zero standard deviation
disables the check). -/
def rtZScoreCheck (sq : ℚ → ℚ) (th : Thresholds) (current : ℚ)
    (history : List ℚ) : Option RealtimeRec :=
  let mean := listMean history
  let std := sq (listVariance history)
  if 0 < std then
    let z := |current - mean| / std
    if th.z_score_threshold < z then
      some { severity := get_severity z, type := "statistical", score := min (z / 5) 1 }
    else none
  else none

/-- The realtime PredictionError check, as the claim describes it:
performed only when a prediction is supplied (a non-positive prediction
cannot trigger it). -/
def rtPredictionCheck (current : ℚ) (predicted : Option ℚ) : Option RealtimeRec :=
  match predicted with
  | none => none
  | some pv =>
    let relative_error := if 0 < pv then |current - pv| / pv * 100 else 0
    if 30 < relative_error then
      some { severity := if 50 < relative_error then "high" else "medium",
             type := "prediction_error", score := min (relative_error / 100) 1 }
    else none

/-- The claim's description of realtime detection: fewer than 10 history
points return none regardless of the current value; otherwise the checks
are scanned in the fixed order critical level, z-score, prediction error,
and the first triggering check's record is returned (none when no check
triggers). -/
def detectOneClaimSpec (sq : ℚ → ℚ) (current : ℚ) (history : List ℚ)
    (predicted : Option ℚ) (metric : String) : Option RealtimeRec :=
  if history.length < 10 then none
  else
    [rtCriticalCheck (getThresholds metric) current,
     rtZScoreCheck sq (getThresholds metric) current history,
     rtPredictionCheck current predicted].findSome? id

/-- A stand-in for the square-root parameter on evaluation paths that
never reach it. -/
def sqZero : ℚ → ℚ := fun _ => 0

/-- Five half-hour samples of an idle CPU; the memory and network columns
are absent. -/
def frameIdleCpuOnly : ServerFrame :=
  { timestamp := [0, 1, 2, 3, 4],
    cols := [("cpu.usage.average", [5, 5, 5, 5, 5])] }

/-- One row of data in which all three required metric columns are
absent. -/
def frameNoMetrics : ServerFrame :=
  { timestamp := [0], cols := [] }

/-- Five CPU samples of which exactly one (20 percent) exceeds 85. -/
def frameBoundaryCpu : ServerFrame :=
  { timestamp := [0, 1, 2, 3, 4],
    cols := [("cpu.usage.average", [90, 50, 50, 50, 50])] }

/-- Ten memory samples of which exactly two (20 percent) exceed 80. -/
def frameBoundaryMem : ServerFrame :=
  { timestamp := [0, 1, 2, 3, 4, 5, 6, 7, 8, 9],
    cols := [("mem.usage.average", [90, 90, 50, 50, 50, 50, 50, 50, 50, 50])] }

/-- All three idle conditions hold on every sample. -/
def frameAllIdle : ServerFrame :=
  { timestamp := [0, 1],
    cols := [("cpu.usage.average", [5, 5]), ("mem.usage.average", [10, 10]),
             ("net.usage.average", [1, 1])] }

/-- Every CPU sample exceeds 85. -/
def frameOverloadedCpu : ServerFrame :=
  { timestamp := [0, 1],
    cols := [("cpu.usage.average", [90, 90])] }

/-- A non-empty frame carrying only a `cpu_usage` column: the
`memory_usage`, `disk_usage` and `network_in_mbps` columns are absent. -/
def frameCpuUsageOnly : ServerFrame :=
  { timestamp := [0], cols := [("cpu_usage", [50])] }

/-- The warning alert the low-CPU rule emits on `frameIdleCpuOnly`. -/
def lowCpuIdleAlert : Alert :=
  { rule := lowCpuRule, value := 5, timestamp := 4, server := "server-1" }

theorem floorShare_le (count len : ℕ) (tp : ℚ) (h0 : 0 ≤ tp)
    (h : tp < (count : ℚ) / (len : ℚ)) :
    ((len : ℚ) * tp).floor.toNat ≤ count := by
  rcases Nat.eq_zero_or_pos len with hlen | hlen
  · subst hlen
    simp at h
    linarith
  · have hlQ : (0 : ℚ) < (len : ℚ) := by exact_mod_cast hlen
    have hmul : (len : ℚ) * tp < count := by
      have h2 := (lt_div_iff₀ hlQ).mp h
      linarith
    have hfle : ((((len : ℚ) * tp).floor : ℤ) : ℚ) ≤ (len : ℚ) * tp :=
      Rat.le_floor.mp le_rfl
    have hlt : ((((len : ℚ) * tp).floor : ℤ) : ℚ) < (count : ℚ) :=
      lt_of_le_of_lt hfle hmul
    have hz : ((len : ℚ) * tp).floor < (count : ℤ) := by exact_mod_cast hlt
    exact Int.toNat_le.mpr (le_of_lt hz)

theorem detectStep_isSome (sq : ℚ → ℚ) (th : Thresholds) (a p : List ℚ)
    (t : List ℕ) (i : ℕ) (hi : i < t.length) :
    (detectStep sq th a p t i).isSome := by
  obtain ⟨ts, hts⟩ : ∃ ts, t.get? i = some ts := by
    cases hg : t.get? i with
    | none => exact absurd (List.get?_eq_none.mp hg) (Nat.not_le.mpr hi)
    | some ts => exact ⟨ts, rfl⟩
  simp only [detectStep, hts, Option.bind_eq_bind, Option.some_bind]
  split <;> simp

theorem detectLoop_isSome (sq : ℚ → ℚ) (th : Thresholds) (a p : List ℚ)
    (t : List ℕ) : ∀ is : List ℕ, (∀ i ∈ is, i < t.length) →
    (detectLoop sq th a p t is).isSome
  | [], _ => by simp [detectLoop]
  | i :: rest, h => by
    obtain ⟨rs, hrs⟩ := Option.isSome_iff_exists.mp
      (detectStep_isSome sq th a p t i (h i (by simp)))
    obtain ⟨L, hL⟩ := Option.isSome_iff_exists.mp
      (detectLoop_isSome sq th a p t rest (fun j hj => h j (by simp [hj])))
    simp [detectLoop, hrs, hL]

theorem detectLoop_mem (sq : ℚ → ℚ) (th : Thresholds) (a p : List ℚ)
    (t : List ℕ) : ∀ (is : List ℕ) (L : List AnomalyRec) (i : ℕ)
    (rs : List AnomalyRec), detectLoop sq th a p t is = some L → i ∈ is →
    detectStep sq th a p t i = some rs → ∀ r ∈ rs, r ∈ L
  | [], _, _, _, _, hi, _, _, _ => by simp at hi
  | j :: rest, L, i, rs, hL, hi, hstep, r, hr => by
    simp only [detectLoop, Option.bind_eq_bind] at hL
    cases hj : detectStep sq th a p t j with
    | none => rw [hj] at hL; simp at hL
    | some rs0 =>
      rw [hj] at hL
      cases hrest : detectLoop sq th a p t rest with
      | none => rw [hrest] at hL; simp at hL
      | some L0 =>
        rw [hrest] at hL
        simp only [Option.some_bind, Option.pure_def, Option.some_inj] at hL
        subst hL
        rcases List.mem_cons.mp hi with hij | hmem
        · subst hij
          rw [hstep] at hj
          obtain rfl : rs = rs0 := by injection hj
          exact List.mem_append_left _ hr
        · exact List.mem_append_right _
            (detectLoop_mem sq th a p t rest L0 i rs hrest hmem hstep r hr)

/-- C4, counterexample: `detect` called with a `timestamps` array shorter
than the (equal-length) value arrays raises IndexError (modelled `none`)
instead of returning the empty result the claim promises. -/
theorem C4_counterexample :
    detect_anomalies sqZero [10, 10] [10, 10] [0] "cpu.usage.average" = none := by
  decide

/-- C4 (amended): `detect` validates only `len(actual) == len(predicted)`;
on that mismatch it returns an empty result with no partial output and
without raising.  The `timestamps` length is never checked: whenever
`timestamps` covers the value arrays the call returns normally (so a
longer `timestamps` array is accepted, and a shorter one raises
IndexError rather than returning empty, as the counterexample shows). -/
theorem C4_theorem (sq : ℚ → ℚ) (a p : List ℚ) (t : List ℕ) (m : String) :
    (a.length ≠ p.length → detect_anomalies sq a p t m = some []) ∧
    (a.length ≤ t.length → (detect_anomalies sq a p t m).isSome) := by
  constructor
  · intro h
    simp [detect_anomalies, h]
  · intro h
    unfold detect_anomalies
    split
    · simp
    · exact detectLoop_isSome sq (getThresholds m) a p t (List.range a.length)
        (fun i hi => lt_of_lt_of_le (List.mem_range.mp hi) h)

theorem C4_witness :
    detect_anomalies sqZero [1] [2, 3] [0] "cpu.usage.average" = some [] ∧
    (detect_anomalies sqZero [10] [10] [0] "cpu.usage.average").isSome :=
  ⟨(C4_theorem sqZero [1] [2, 3] [0] "cpu.usage.average").1 (by decide),
   (C4_theorem sqZero [10] [10] [0] "cpu.usage.average").2 (by decide)⟩

/-- C8 (confirmed): in batch mode, when CriticalLevel fires at index `i`
(`actual[i] ≥ profile.critical_level`), the loop iteration for `i` emits
exactly the one record with type `critical_level`, severity `critical`
and score `1` — the `continue` skips the z-score, prediction-error and
rate-of-change checks for that index — and that record appears in the
overall batch result. -/
theorem C8_theorem (sq : ℚ → ℚ) (a p : List ℚ) (t : List ℕ) (m : String) (i : ℕ)
    (hlen : a.length = p.length) (ht : a.length ≤ t.length) (hi : i < a.length)
    (hcrit : (getThresholds m).critical_level ≤ a.getD i 0) :
    detectStep sq (getThresholds m) a p t i =
      some [{ timestamp := t.getD i 0, actual := a.getD i 0, predicted := p.getD i 0,
              anomaly_score := 1, severity := "critical", type := "critical_level" }] ∧
    ∃ L, detect_anomalies sq a p t m = some L ∧
      ({ timestamp := t.getD i 0, actual := a.getD i 0, predicted := p.getD i 0,
         anomaly_score := 1, severity := "critical",
         type := "critical_level" } : AnomalyRec) ∈ L := by
  have hit : i < t.length := lt_of_lt_of_le hi ht
  have hget : t.get? i = some (t.getD i 0) := by
    rw [List.getD_eq_get t 0 hit]
    exact List.get?_eq_get hit
  have hstep : detectStep sq (getThresholds m) a p t i =
      some [{ timestamp := t.getD i 0, actual := a.getD i 0, predicted := p.getD i 0,
              anomaly_score := 1, severity := "critical", type := "critical_level" }] := by
    simp only [detectStep, hget, Option.bind_eq_bind, Option.some_bind]
    rw [if_pos hcrit]
    rfl
  refine ⟨hstep, ?_⟩
  obtain ⟨L, hL⟩ := Option.isSome_iff_exists.mp
    (detectLoop_isSome sq (getThresholds m) a p t (List.range a.length)
      (fun j hj => lt_of_lt_of_le (List.mem_range.mp hj) ht))
  refine ⟨L, ?_, ?_⟩
  · unfold detect_anomalies
    rw [if_neg (fun hne => hne hlen)]
    exact hL
  · exact detectLoop_mem sq (getThresholds m) a p t (List.range a.length) L i _ hL
      (List.mem_range.mpr hi) hstep _ (by simp)

theorem C8_witness :
    detectStep sqZero (getThresholds "cpu.usage.average") [90] [60] [5] 0 =
      some [{ timestamp := 5, actual := 90, predicted := 60, anomaly_score := 1,
              severity := "critical", type := "critical_level" }] ∧
    ∃ L, detect_anomalies sqZero [90] [60] [5] "cpu.usage.average" = some L ∧
      ({ timestamp := 5, actual := 90, predicted := 60, anomaly_score := 1,
         severity := "critical", type := "critical_level" } : AnomalyRec) ∈ L :=
  C8_theorem sqZero [90] [60] [5] "cpu.usage.average" 0 (by decide) (by decide)
    (by decide) (by decide)

theorem mem_of_mem_ite {α : Type} {c : Prop} [Decidable c] {L : List α} {r : α}
    (h : r ∈ (if c then L else [])) : c ∧ r ∈ L := by
  split at h
  · exact ⟨by assumption, h⟩
  · simp at h

theorem detectStep_score (sq : ℚ → ℚ) (th : Thresholds) (a p : List ℚ)
    (t : List ℕ) (i : ℕ) (rs : List AnomalyRec) (r : AnomalyRec)
    (h : detectStep sq th a p t i = some rs) (hr : r ∈ rs) :
    0 ≤ r.anomaly_score ∧ r.anomaly_score ≤ 1 := by
  cases hg : t.get? i with
  | none =>
    simp only [detectStep, hg, Option.bind_eq_bind, Option.none_bind] at h
    exact absurd h (by simp)
  | some ts =>
    simp only [detectStep, hg, Option.bind_eq_bind, Option.some_bind,
      Option.pure_def] at h
    split at h
    · obtain rfl := Option.some_inj.mp h
      rw [List.mem_singleton] at hr
      subst hr
      exact ⟨by norm_num, by norm_num⟩
    · obtain rfl := Option.some_inj.mp h
      rcases List.mem_append.mp hr with h12 | hrRate
      · rcases List.mem_append.mp h12 with hrZ | hrPred
        · obtain ⟨hi0, hrZ⟩ := mem_of_mem_ite hrZ
          obtain ⟨hlen3, hrZ⟩ := mem_of_mem_ite hrZ
          obtain ⟨hstd, hrZ⟩ := mem_of_mem_ite hrZ
          obtain ⟨hthr, hrZ⟩ := mem_of_mem_ite hrZ
          rw [List.mem_singleton] at hrZ
          subst hrZ
          refine ⟨le_min ?_ zero_le_one, min_le_right _ _⟩
          exact div_nonneg (div_nonneg (abs_nonneg _) hstd.le) (by norm_num)
        · obtain ⟨hp, hrPred⟩ := mem_of_mem_ite hrPred
          obtain ⟨h30, hrPred⟩ := mem_of_mem_ite hrPred
          rw [List.mem_singleton] at hrPred
          subst hrPred
          refine ⟨le_min ?_ zero_le_one, min_le_right _ _⟩
          exact div_nonneg
            (mul_nonneg (div_nonneg (abs_nonneg _) hp.le) (by norm_num)) (by norm_num)
      · obtain ⟨hi0, hrRate⟩ := mem_of_mem_ite hrRate
        obtain ⟨hroc, hrRate⟩ := mem_of_mem_ite hrRate
        rw [List.mem_singleton] at hrRate
        subst hrRate
        refine ⟨le_min ?_ zero_le_one, min_le_right _ _⟩
        exact div_nonneg (abs_nonneg _) (by norm_num)

theorem detectLoop_score (sq : ℚ → ℚ) (th : Thresholds) (a p : List ℚ)
    (t : List ℕ) : ∀ (is : List ℕ) (L : List AnomalyRec) (r : AnomalyRec),
    detectLoop sq th a p t is = some L → r ∈ L →
    0 ≤ r.anomaly_score ∧ r.anomaly_score ≤ 1
  | [], L, r, hL, hr => by
    simp only [detectLoop, Option.some_inj] at hL
    subst hL
    simp at hr
  | i :: rest, L, r, hL, hr => by
    simp only [detectLoop, Option.bind_eq_bind] at hL
    cases hj : detectStep sq th a p t i with
    | none => rw [hj] at hL; simp at hL
    | some rs0 =>
      rw [hj] at hL
      cases hrest : detectLoop sq th a p t rest with
      | none => rw [hrest] at hL; simp at hL
      | some L0 =>
        rw [hrest] at hL
        simp only [Option.some_bind, Option.pure_def, Option.some_inj] at hL
        subst hL
        rcases List.mem_append.mp hr with h1 | h2
        · exact detectStep_score sq th a p t i rs0 r hj h1
        · exact detectLoop_score sq th a p t rest L0 r hrest h2

theorem detect_realtime_score (sq : ℚ → ℚ) (c : ℚ) (hist : List ℚ)
    (pr : Option ℚ) (m : String) (r : RealtimeRec)
    (h : detect_realtime_anomaly sq c hist pr m = some r) :
    0 ≤ r.score ∧ r.score ≤ 1 := by
  simp only [detect_realtime_anomaly] at h
  split at h
  · exact absurd h (by simp)
  · split at h
    · obtain rfl := Option.some_inj.mp h
      exact ⟨by norm_num, by norm_num⟩
    · split at h
      · next r2 heq =>
        obtain rfl := Option.some_inj.mp h
        split_ifs at heq with hstd hthr
        · obtain rfl := Option.some_inj.mp heq
          refine ⟨le_min ?_ zero_le_one, min_le_right _ _⟩
          exact div_nonneg (div_nonneg (abs_nonneg _) hstd.le) (by norm_num)
      · next heq =>
        split at h
        · next pv =>
          by_cases hpv : 0 < pv
          · rw [if_pos hpv] at h
            split_ifs at h with h30 h50 <;>
            first
            | · obtain rfl := Option.some_inj.mp h
                refine ⟨le_min ?_ zero_le_one, min_le_right _ _⟩
                exact div_nonneg
                  (mul_nonneg (div_nonneg (abs_nonneg _) hpv.le) (by norm_num))
                  (by norm_num)
            | exact absurd h (by simp)
          · rw [if_neg hpv] at h
            simp at h
            exact absurd h.1 (by norm_num)
        · exact absurd h (by simp)

/-- C9 (confirmed): every anomaly record produced by the batch detector
and every record produced by the realtime detector carries an
`anomaly_score` in the closed interval `[0, 1]`: the critical-level score
is the constant `1`, and the z-score, prediction-error and rate-of-change
scores are each `min` of a non-negative quantity and `1`. -/
theorem C9_theorem :
    (∀ (sq : ℚ → ℚ) (a p : List ℚ) (t : List ℕ) (m : String)
      (L : List AnomalyRec) (r : AnomalyRec),
      detect_anomalies sq a p t m = some L → r ∈ L →
      0 ≤ r.anomaly_score ∧ r.anomaly_score ≤ 1) ∧
    (∀ (sq : ℚ → ℚ) (c : ℚ) (hist : List ℚ) (pr : Option ℚ) (m : String)
      (r : RealtimeRec),
      detect_realtime_anomaly sq c hist pr m = some r →
      0 ≤ r.score ∧ r.score ≤ 1) := by
  constructor
  · intro sq a p t m L r hL hr
    unfold detect_anomalies at hL
    split at hL
    · obtain rfl := Option.some_inj.mp hL
      simp at hr
    · exact detectLoop_score sq (getThresholds m) a p t (List.range a.length) L r hL hr
  · exact detect_realtime_score

theorem C9_witness :
    (0 ≤ ({ timestamp := 0, actual := 90, predicted := 60, anomaly_score := 1,
            severity := "critical", type := "critical_level" } : AnomalyRec).anomaly_score ∧
     ({ timestamp := 0, actual := 90, predicted := 60, anomaly_score := 1,
        severity := "critical", type := "critical_level" } : AnomalyRec).anomaly_score ≤ 1) ∧
    (0 ≤ ({ severity := "critical", type := "critical_level",
            score := 1 } : RealtimeRec).score ∧
     ({ severity := "critical", type := "critical_level",
        score := 1 } : RealtimeRec).score ≤ 1) :=
  ⟨C9_theorem.1 sqZero [90] [60] [0] "cpu.usage.average"
      [{ timestamp := 0, actual := 90, predicted := 60, anomaly_score := 1,
         severity := "critical", type := "critical_level" }]
      { timestamp := 0, actual := 90, predicted := 60, anomaly_score := 1,
        severity := "critical", type := "critical_level" }
      (by decide) (by simp),
   C9_theorem.2 sqZero 95 (List.replicate 10 50) none "cpu.usage.average"
      { severity := "critical", type := "critical_level", score := 1 }
      (by decide)⟩

theorem option_match_id {α : Type} (x : Option α) :
    (match x with | some r => some r | none => none) = x := by
  cases x <;> rfl

/-- C10 (confirmed): the realtime detector returns none whenever the
history holds fewer than 10 points, regardless of the current value;
otherwise it scans, in fixed order, the critical-level check on the
current value, the z-score check computed from the mean and standard
deviation of the entire history (not a 10-point trailing window), and the
prediction-error check when a prediction is supplied, returning the first
triggering check's record and none when no check triggers — hence at most
one record.  Formally, it coincides with `detectOneClaimSpec`, the
first-match scan written from the claim. -/
theorem C10_theorem (sq : ℚ → ℚ) (current : ℚ) (hist : List ℚ)
    (pred : Option ℚ) (m : String) :
    detect_realtime_anomaly sq current hist pred m =
      detectOneClaimSpec sq current hist pred m := by
  by_cases h10 : hist.length < 10
  · simp [detect_realtime_anomaly, detectOneClaimSpec, h10]
  · by_cases hc : (getThresholds m).critical_level ≤ current
    · simp [detect_realtime_anomaly, detectOneClaimSpec, rtCriticalCheck, h10, hc,
        List.findSome?]
    · by_cases hstd : 0 < sq (listVariance hist)
      · by_cases hz : (getThresholds m).z_score_threshold <
            |current - listMean hist| / sq (listVariance hist)
        · simp [detect_realtime_anomaly, detectOneClaimSpec, rtCriticalCheck,
            rtZScoreCheck, h10, hc, hstd, hz, List.findSome?]
        · cases pred with
          | none =>
            simp [detect_realtime_anomaly, detectOneClaimSpec, rtCriticalCheck,
              rtZScoreCheck, rtPredictionCheck, h10, hc, hstd, hz, List.findSome?]
          | some pv =>
            simp only [detect_realtime_anomaly, detectOneClaimSpec, rtCriticalCheck,
              rtZScoreCheck, rtPredictionCheck, h10, hc, hstd, hz, List.findSome?,
              if_false, if_true, id]
            split <;> first | rfl | (split <;> rfl)
      · cases pred with
        | none =>
          simp [detect_realtime_anomaly, detectOneClaimSpec, rtCriticalCheck,
            rtZScoreCheck, rtPredictionCheck, h10, hc, hstd, List.findSome?]
        | some pv =>
          simp only [detect_realtime_anomaly, detectOneClaimSpec, rtCriticalCheck,
            rtZScoreCheck, rtPredictionCheck, h10, hc, hstd, List.findSome?,
            if_false, if_true, id]
          split <;> first | rfl | (split <;> rfl)

theorem getCol_mem (f : ServerFrame) (m : String) (d : List ℚ)
    (h : f.getCol m = some d) : ∃ p ∈ f.cols, p.2 = d := by
  unfold ServerFrame.getCol at h
  cases hf : f.cols.find? (fun p => p.1 = m) with
  | none => rw [hf] at h; simp at h
  | some p =>
    rw [hf] at h
    simp at h
    exact ⟨p, List.mem_of_find?_eq_some hf, h⟩

theorem analyze_nonempty (sys : AlertSystem) (f : ServerFrame) (s : String)
    (he : f.isEmpty = false) :
    (sys.analyze_server_status f s).1 =
      { status := determineServerStatus (sys.rules.flatMap (fun r => evalRule f s r)) f,
        alerts := sys.rules.flatMap (fun r => evalRule f s r) } := by
  unfold AlertSystem.analyze_server_status
  rw [if_neg (by simp [he])]

theorem determineStatus_overloaded_iff (als : List Alert) (f : ServerFrame) :
    determineServerStatus als f = ServerStatus.overloaded ↔
      (∃ d, f.getCol "cpu.usage.average" = some d ∧ (1 : ℚ)/5 < exceedShare d 85) ∨
      (∃ d, f.getCol "mem.usage.average" = some d ∧ (1 : ℚ)/5 < exceedShare d 80) := by
  unfold determineServerStatus
  split_ifs with hover hunder
  · simp only [eq_self_iff_true, true_iff]
    simp only [overloadCriteria, List.any_cons, List.any_nil, Bool.or_false,
      Bool.or_eq_true] at hover
    rcases hover with h | h
    · cases hg : f.getCol "cpu.usage.average" with
      | none => rw [hg] at h; simp at h
      | some d =>
        rw [hg] at h
        simp only [decide_eq_true_eq] at h
        exact Or.inl ⟨d, rfl, by simpa [exceedShare] using h⟩
    · cases hg : f.getCol "mem.usage.average" with
      | none => rw [hg] at h; simp at h
      | some d =>
        rw [hg] at h
        simp only [decide_eq_true_eq] at h
        exact Or.inr ⟨d, rfl, by simpa [exceedShare] using h⟩
  · constructor
    · intro h
      exact absurd h (by decide)
    · intro hr
      exfalso
      apply hover
      simp only [overloadCriteria, List.any_cons, List.any_nil, Bool.or_false,
        Bool.or_eq_true]
      rcases hr with ⟨d, hd, hlt⟩ | ⟨d, hd, hlt⟩
      · refine Or.inl ?_
        rw [hd]
        simpa [exceedShare] using hlt
      · refine Or.inr ?_
        rw [hd]
        simpa [exceedShare] using hlt
  · constructor
    · intro h
      exact absurd h (by decide)
    · intro hr
      exfalso
      apply hover
      simp only [overloadCriteria, List.any_cons, List.any_nil, Bool.or_false,
        Bool.or_eq_true]
      rcases hr with ⟨d, hd, hlt⟩ | ⟨d, hd, hlt⟩
      · refine Or.inl ?_
        rw [hd]
        simpa [exceedShare] using hlt
      · refine Or.inr ?_
        rw [hd]
        simpa [exceedShare] using hlt

theorem determineStatus_underloaded_then (als : List Alert) (f : ServerFrame)
    (h : determineServerStatus als f = ServerStatus.underloaded) :
    (∀ d, f.getCol "cpu.usage.average" = some d → (4 : ℚ)/5 ≤ belowShare d 15) ∧
    (∀ d, f.getCol "mem.usage.average" = some d → (4 : ℚ)/5 ≤ belowShare d 25) ∧
    (∀ d, f.getCol "net.usage.average" = some d → (4 : ℚ)/5 ≤ belowShare d 5) := by
  unfold determineServerStatus at h
  split_ifs at h with hover hunder
  all_goals first
  | exact absurd h (by decide)
  | (simp only [underloadCriteria, List.all_cons, List.all_nil, Bool.and_true,
       Bool.and_eq_true] at hunder
     obtain ⟨hcpu, hmem, hnet⟩ := hunder
     refine ⟨?_, ?_, ?_⟩
     · intro d hd
       rw [hd] at hcpu
       simpa [belowShare] using hcpu
     · intro d hd
       rw [hd] at hmem
       simpa [belowShare] using hmem
     · intro d hd
       rw [hd] at hnet
       simpa [belowShare] using hnet)

theorem rat_floor_eq_intFloor (q : ℚ) : q.floor = ⌊q⌋ := rfl

/-- C1, counterexample: a non-empty window set in which only the CPU
column is present (memory and network are missing) is classified
Underloaded — the missing metrics are skipped rather than making their
terms false, so Underloaded is declared although two of the three metrics
are missing. -/
theorem C1_counterexample :
    (defaultSystem.analyze_server_status frameIdleCpuOnly "server-1").1.status =
        ServerStatus.underloaded ∧
    frameIdleCpuOnly.getCol "mem.usage.average" = none ∧
    frameIdleCpuOnly.getCol "net.usage.average" = none := by
  refine ⟨?_, by decide, by decide⟩
  rw [analyze_nonempty defaultSystem frameIdleCpuOnly "server-1" (by decide)]
  have hc : frameIdleCpuOnly.getCol "cpu.usage.average" = some [5, 5, 5, 5, 5] := by
    decide
  have hm : frameIdleCpuOnly.getCol "mem.usage.average" = none := by decide
  have hn : frameIdleCpuOnly.getCol "net.usage.average" = none := by decide
  show determineServerStatus
    (defaultSystem.rules.flatMap fun r => evalRule frameIdleCpuOnly "server-1" r)
    frameIdleCpuOnly = ServerStatus.underloaded
  norm_num [determineServerStatus, overloadCriteria, underloadCriteria, hc, hm, hn,
    List.filter]

/-- C1 (amended): for every non-empty window set, Underloaded is returned
only if, for each of the three idle metrics that is present, its idle
condition (cpu below 15, memory below 25, network below 5) holds on at
least 80 percent of that column's samples; a missing metric's term is
skipped (treated as satisfied) rather than made false, so Underloaded can
be declared while metrics are missing. -/
theorem C1_theorem (f : ServerFrame) (s : String)
    (h : (defaultSystem.analyze_server_status f s).1.status =
      ServerStatus.underloaded) :
    (∀ d, f.getCol "cpu.usage.average" = some d → (4 : ℚ)/5 ≤ belowShare d 15) ∧
    (∀ d, f.getCol "mem.usage.average" = some d → (4 : ℚ)/5 ≤ belowShare d 25) ∧
    (∀ d, f.getCol "net.usage.average" = some d → (4 : ℚ)/5 ≤ belowShare d 5) := by
  by_cases he : f.isEmpty
  · unfold AlertSystem.analyze_server_status at h
    rw [if_pos he] at h
    exact absurd h (by decide)
  · rw [analyze_nonempty defaultSystem f s (by simpa using he)] at h
    exact determineStatus_underloaded_then
      (defaultSystem.rules.flatMap (fun r => evalRule f s r)) f h

theorem C1_witness :
    (4 : ℚ)/5 ≤ belowShare [5, 5] 15 := by
  have hstatus : (defaultSystem.analyze_server_status frameAllIdle "server-1").1.status =
      ServerStatus.underloaded := by
    rw [analyze_nonempty defaultSystem frameAllIdle "server-1" (by decide)]
    have hc : frameAllIdle.getCol "cpu.usage.average" = some [5, 5] := by decide
    have hm : frameAllIdle.getCol "mem.usage.average" = some [10, 10] := by decide
    have hn : frameAllIdle.getCol "net.usage.average" = some [1, 1] := by decide
    show determineServerStatus
      (defaultSystem.rules.flatMap fun r => evalRule frameAllIdle "server-1" r)
      frameAllIdle = ServerStatus.underloaded
    norm_num [determineServerStatus, overloadCriteria, underloadCriteria, hc, hm, hn,
      List.filter]
  exact (C1_theorem frameAllIdle "server-1" hstatus).1 [5, 5] (by decide)

/-- C2, counterexample: a window set with one row in which all three
required metric columns are absent is not classified Unknown — the
`empty` check only fires on a frame with no rows, and the underload loop
skips all three missing metrics, so the classifier returns Underloaded. -/
theorem C2_counterexample :
    (defaultSystem.analyze_server_status frameNoMetrics "server-1").1.status =
        ServerStatus.underloaded ∧
    frameNoMetrics.getCol "cpu.usage.average" = none ∧
    frameNoMetrics.getCol "mem.usage.average" = none ∧
    frameNoMetrics.getCol "net.usage.average" = none ∧
    frameNoMetrics.isEmpty = false := by
  refine ⟨?_, by decide, by decide, by decide, by decide⟩
  rw [analyze_nonempty defaultSystem frameNoMetrics "server-1" (by decide)]
  have hc : frameNoMetrics.getCol "cpu.usage.average" = none := by decide
  have hm : frameNoMetrics.getCol "mem.usage.average" = none := by decide
  have hn : frameNoMetrics.getCol "net.usage.average" = none := by decide
  show determineServerStatus
    (defaultSystem.rules.flatMap fun r => evalRule frameNoMetrics "server-1" r)
    frameNoMetrics = ServerStatus.underloaded
  simp [determineServerStatus, overloadCriteria, underloadCriteria, hc, hm, hn]

/-- C2 (amended): when the window set itself is empty (no rows) the
classifier returns Unknown with no alerts; but when the frame is
non-empty and every required metric column is absent it instead returns
Underloaded, again with no alerts. -/
theorem C2_theorem :
    (∀ (sys : AlertSystem) (f : ServerFrame) (s : String), f.isEmpty = true →
      (sys.analyze_server_status f s).1 =
        { status := ServerStatus.unknown, alerts := [] }) ∧
    (∀ (f : ServerFrame) (s : String), f.isEmpty = false →
      f.getCol "cpu.usage.average" = none → f.getCol "mem.usage.average" = none →
      f.getCol "net.usage.average" = none →
      (defaultSystem.analyze_server_status f s).1 =
        { status := ServerStatus.underloaded, alerts := [] }) := by
  constructor
  · intro sys f s he
    unfold AlertSystem.analyze_server_status
    rw [if_pos he]
  · intro f s he hc hm hn
    rw [analyze_nonempty defaultSystem f s he]
    have halerts : defaultSystem.rules.flatMap (fun r => evalRule f s r) = [] := by
      simp [defaultSystem, defaultRules, evalRule, highCpuRule, highMemRule,
        lowCpuRule, hc, hm, hn]
    rw [halerts]
    have hst : determineServerStatus [] f = ServerStatus.underloaded := by
      unfold determineServerStatus
      rw [if_neg, if_pos]
      · simp [underloadCriteria, hc, hm, hn]
      · simp [overloadCriteria, hc, hm]
    rw [hst]

theorem C2_witness :
    (defaultSystem.analyze_server_status { timestamp := [], cols := [] } "s").1 =
      { status := ServerStatus.unknown, alerts := [] } ∧
    (defaultSystem.analyze_server_status frameNoMetrics "s").1 =
      { status := ServerStatus.underloaded, alerts := [] } :=
  ⟨C2_theorem.1 defaultSystem { timestamp := [], cols := [] } "s" (by decide),
   C2_theorem.2 frameNoMetrics "s" (by decide) (by decide) (by decide) (by decide)⟩

/-- C5, counterexample: `analyze_server_status` is not free of hidden
state mutation — on a window set that triggers the low-CPU rule, the call
appends the emitted alert to the system's `alerts_history`, so the stored
state after the call differs from the state before it. -/
theorem C5_counterexample :
    (defaultSystem.analyze_server_status frameIdleCpuOnly "server-1").2.alertsHistory ≠
      defaultSystem.alertsHistory := by
  have hc : frameIdleCpuOnly.getCol "cpu.usage.average" = some [5, 5, 5, 5, 5] := by
    decide
  have hlg : ¬(("lt" : String) = "gt") := by decide
  have hdl : dictGet [("low", (15 : ℚ))] "low" = 15 := by decide
  have hts : frameIdleCpuOnly.lastTimestamp = 4 := by decide
  have heval : evalRule frameIdleCpuOnly "server-1" lowCpuRule =
      [lowCpuIdleAlert] := by
    norm_num [evalRule, lowCpuRule, lowCpuIdleAlert, hc, hlg, hdl, hts, listMean,
      List.filter, rat_floor_eq_intFloor]
  have hmem : lowCpuIdleAlert ∈
      defaultSystem.rules.flatMap (fun r => evalRule frameIdleCpuOnly "server-1" r) := by
    apply List.mem_flatMap.mpr
    refine ⟨lowCpuRule, ?_, ?_⟩
    · simp [defaultSystem, defaultRules]
    · rw [heval]
      simp
  have h2 : (defaultSystem.analyze_server_status frameIdleCpuOnly "server-1").2.alertsHistory =
      defaultSystem.alertsHistory ++
        defaultSystem.rules.flatMap (fun r => evalRule frameIdleCpuOnly "server-1" r) := by
    unfold AlertSystem.analyze_server_status
    rw [if_neg (by decide)]
  rw [h2]
  intro hcontra
  exact List.ne_nil_of_mem hmem (by simpa using hcontra)

/-- C5 (amended): the returned classification result is a deterministic
function of the window set, the server name and the rule configuration —
in particular it is independent of the accumulated `alerts_history`, so
repeated calls on identical inputs yield identical outputs even as the
state grows — but `analyze_server_status` does mutate hidden state,
appending every emitted alert to `alerts_history` (and
`analyze_server_alerts` additionally fills absent auxiliary columns with
random draws, modelled here as explicit parameters). -/
theorem C5_theorem (rules : List AlertRule) (h1 h2 : List Alert) (cap1 cap2 : ℚ)
    (f : ServerFrame) (s : String) :
    ((AlertSystem.mk rules h1 cap1).analyze_server_status f s).1 =
      ((AlertSystem.mk rules h2 cap2).analyze_server_status f s).1 := by
  unfold AlertSystem.analyze_server_status
  by_cases he : f.isEmpty = true <;> simp [he]

/-- C6, counterexample: a window set in which exactly 20 percent of the
memory samples exceed 80 (2 of 10) is classified Normal, not Overloaded —
the status comparison is strict (`count/total > 0.2`). -/
theorem C6_counterexample :
    (defaultSystem.analyze_server_status frameBoundaryMem "server-1").1.status =
      ServerStatus.normal := by
  rw [analyze_nonempty defaultSystem frameBoundaryMem "server-1" (by decide)]
  have hc : frameBoundaryMem.getCol "cpu.usage.average" = none := by decide
  have hm : frameBoundaryMem.getCol "mem.usage.average" =
      some [90, 90, 50, 50, 50, 50, 50, 50, 50, 50] := by decide
  have hn : frameBoundaryMem.getCol "net.usage.average" = none := by decide
  show determineServerStatus
    (defaultSystem.rules.flatMap fun r => evalRule frameBoundaryMem "server-1" r)
    frameBoundaryMem = ServerStatus.normal
  norm_num [determineServerStatus, overloadCriteria, underloadCriteria, hc, hm, hn,
    List.filter]

/-- C6 (amended): for every well-formed window set, the classifier
returns Overloaded iff cpu usage exceeds 85 on strictly more than 20
percent of samples or memory usage exceeds 80 on strictly more than 20
percent of samples, over whichever of these two metrics are present; a
window in which exactly 20 percent of samples exceed the threshold is not
Overloaded. -/
theorem C6_theorem (f : ServerFrame) (s : String) (hwf : ServerFrameWf f) :
    ((defaultSystem.analyze_server_status f s).1.status = ServerStatus.overloaded ↔
      (∃ d, f.getCol "cpu.usage.average" = some d ∧ (1 : ℚ)/5 < exceedShare d 85) ∨
      (∃ d, f.getCol "mem.usage.average" = some d ∧ (1 : ℚ)/5 < exceedShare d 80)) := by
  by_cases he : f.isEmpty
  · unfold AlertSystem.analyze_server_status
    rw [if_pos he]
    constructor
    · intro h
      exact absurd h (by decide)
    · have hempty : f.timestamp = [] := by
        have : f.timestamp.isEmpty = true := he
        simpa [List.isEmpty_iff] using this
      rintro (⟨d, hd, hlt⟩ | ⟨d, hd, hlt⟩) <;>
      · exfalso
        obtain ⟨p, hp, hpd⟩ := getCol_mem f _ d hd
        have hlen : d.length = 0 := by
          rw [← hpd, hwf p hp, hempty]
          rfl
        have hd0 : d = [] := List.length_eq_zero.mp hlen
        subst hd0
        simp [exceedShare] at hlt
        norm_num at hlt
  · rw [analyze_nonempty defaultSystem f s (by simpa using he)]
    show determineServerStatus
      (defaultSystem.rules.flatMap fun r => evalRule f s r) f =
        ServerStatus.overloaded ↔ _
    exact determineStatus_overloaded_iff _ f

theorem C6_witness :
    (defaultSystem.analyze_server_status frameOverloadedCpu "s").1.status =
      ServerStatus.overloaded := by
  have hwf : ServerFrameWf frameOverloadedCpu := by
    intro p hp
    simp [frameOverloadedCpu] at hp
    subst hp
    rfl
  exact (C6_theorem frameOverloadedCpu "s" hwf).mpr
    (Or.inl ⟨[90, 90], by decide, by norm_num [exceedShare, List.filter]⟩)

theorem evalRule_gt_fires (f : ServerFrame) (s : String) (rule : AlertRule)
    (d : List ℚ) (hcond : rule.condition = "gt")
    (hd : f.getCol rule.metric = some d)
    (hreq : ((d.length : ℚ) * rule.time_percentage).floor.toNat ≤
      (d.filter (fun x => decide (dictGet rule.thresholds "high" < x))).length) :
    evalRule f s rule =
      [{ rule := rule,
         value := listMean (d.filter (fun x => decide (dictGet rule.thresholds "high" < x))),
         timestamp := f.lastTimestamp, server := s }] := by
  simp only [evalRule, hd, hcond, if_true, eq_self_iff_true]
  rw [if_pos hreq]

/-- C3, counterexample: on a window set where exactly one of five CPU
samples exceeds 85, the alert loop emits the Critical `high_cpu_usage`
alert (its trigger uses `count ≥ int(total·0.2)`), yet the status is
Normal (its criterion demands `count/total > 0.2` strictly) — a Critical
overload alert is in the returned list while the status is not
Overloaded. -/
theorem C3_counterexample :
    (defaultSystem.analyze_server_status frameBoundaryCpu "server-1").1.status =
      ServerStatus.normal ∧
    ∃ a ∈ (defaultSystem.analyze_server_status frameBoundaryCpu "server-1").1.alerts,
      a.rule.severity = AlertSeverity.critical ∧ a.rule.name = "high_cpu_usage" := by
  have hc : frameBoundaryCpu.getCol "cpu.usage.average" = some [90, 50, 50, 50, 50] := by
    decide
  have hm : frameBoundaryCpu.getCol "mem.usage.average" = none := by decide
  have hn : frameBoundaryCpu.getCol "net.usage.average" = none := by decide
  constructor
  · rw [analyze_nonempty defaultSystem frameBoundaryCpu "server-1" (by decide)]
    show determineServerStatus
      (defaultSystem.rules.flatMap fun r => evalRule frameBoundaryCpu "server-1" r)
      frameBoundaryCpu = ServerStatus.normal
    norm_num [determineServerStatus, overloadCriteria, underloadCriteria, hc, hm, hn,
      List.filter]
  · rw [analyze_nonempty defaultSystem frameBoundaryCpu "server-1" (by decide)]
    show ∃ a ∈ defaultSystem.rules.flatMap
        (fun r => evalRule frameBoundaryCpu "server-1" r),
      a.rule.severity = AlertSeverity.critical ∧ a.rule.name = "high_cpu_usage"
    have hdh : dictGet [("high", (85 : ℚ))] "high" = 85 := by decide
    have hts : frameBoundaryCpu.lastTimestamp = 4 := by decide
    have heval : evalRule frameBoundaryCpu "server-1" highCpuRule =
        [{ rule := highCpuRule, value := 90, timestamp := 4, server := "server-1" }] := by
      norm_num [evalRule, highCpuRule, hc, hdh, hts, listMean, List.filter,
        rat_floor_eq_intFloor]
    refine ⟨{ rule := highCpuRule, value := 90, timestamp := 4, server := "server-1" },
      ?_, by decide, by decide⟩
    apply List.mem_flatMap.mpr
    refine ⟨highCpuRule, by simp [defaultSystem, defaultRules], ?_⟩
    rw [heval]
    simp

/-- C3 (amended): for every non-empty window set, Overloaded implies that
at least one Critical-severity overload alert (`high_cpu_usage` or
`high_memory_usage`) is contained in the returned alert list — a strict
overload share `count/total > 0.2` entails the alert trigger
`count ≥ int(total·0.2)`.  The converse direction of the claim fails, as
the counterexample shows, because the two thresholds differ at the
20-percent boundary. -/
theorem C3_theorem (f : ServerFrame) (s : String)
    (h : (defaultSystem.analyze_server_status f s).1.status =
      ServerStatus.overloaded) :
    ∃ a ∈ (defaultSystem.analyze_server_status f s).1.alerts,
      a.rule.severity = AlertSeverity.critical ∧
      (a.rule.name = "high_cpu_usage" ∨ a.rule.name = "high_memory_usage") := by
  by_cases he : f.isEmpty
  · unfold AlertSystem.analyze_server_status at h
    rw [if_pos he] at h
    exact absurd h (by decide)
  · have hne : f.isEmpty = false := by simpa using he
    rw [analyze_nonempty defaultSystem f s hne] at h
    rw [analyze_nonempty defaultSystem f s hne]
    have hov := (determineStatus_overloaded_iff
        (defaultSystem.rules.flatMap fun r => evalRule f s r) f).mp h
    show ∃ a ∈ defaultSystem.rules.flatMap (fun r => evalRule f s r),
      a.rule.severity = AlertSeverity.critical ∧
      (a.rule.name = "high_cpu_usage" ∨ a.rule.name = "high_memory_usage")
    rcases hov with ⟨d, hd, hlt⟩ | ⟨d, hd, hlt⟩
    · have hreq : ((d.length : ℚ) * highCpuRule.time_percentage).floor.toNat ≤
          (d.filter (fun x => decide (dictGet highCpuRule.thresholds "high" < x))).length := by
        have hdh : dictGet highCpuRule.thresholds "high" = 85 := by decide
        rw [hdh, show highCpuRule.time_percentage = 1/5 from rfl]
        exact floorShare_le _ _ _ (by norm_num) (by simpa [exceedShare] using hlt)
      have heval := evalRule_gt_fires f s highCpuRule d rfl hd hreq
      refine ⟨({ rule := highCpuRule,
                 value := listMean (d.filter
                   (fun x => decide (dictGet highCpuRule.thresholds "high" < x))),
                 timestamp := f.lastTimestamp,
                 server := s } : Alert), ?_, rfl, Or.inl rfl⟩
      apply List.mem_flatMap.mpr
      refine ⟨highCpuRule, by simp [defaultSystem, defaultRules], ?_⟩
      rw [heval]
      simp
    · have hreq : ((d.length : ℚ) * highMemRule.time_percentage).floor.toNat ≤
          (d.filter (fun x => decide (dictGet highMemRule.thresholds "high" < x))).length := by
        have hdh : dictGet highMemRule.thresholds "high" = 80 := by decide
        rw [hdh, show highMemRule.time_percentage = 1/5 from rfl]
        exact floorShare_le _ _ _ (by norm_num) (by simpa [exceedShare] using hlt)
      have heval := evalRule_gt_fires f s highMemRule d rfl hd hreq
      refine ⟨({ rule := highMemRule,
                 value := listMean (d.filter
                   (fun x => decide (dictGet highMemRule.thresholds "high" < x))),
                 timestamp := f.lastTimestamp,
                 server := s } : Alert), ?_, rfl, Or.inr rfl⟩
      apply List.mem_flatMap.mpr
      refine ⟨highMemRule, by simp [defaultSystem, defaultRules], ?_⟩
      rw [heval]
      simp

theorem C3_witness :
    ∃ a ∈ (defaultSystem.analyze_server_status frameOverloadedCpu "server-1").1.alerts,
      a.rule.severity = AlertSeverity.critical ∧
      (a.rule.name = "high_cpu_usage" ∨ a.rule.name = "high_memory_usage") := by
  apply C3_theorem
  rw [analyze_nonempty defaultSystem frameOverloadedCpu "server-1" (by decide)]
  have hc : frameOverloadedCpu.getCol "cpu.usage.average" = some [90, 90] := by decide
  have hm : frameOverloadedCpu.getCol "mem.usage.average" = none := by decide
  show determineServerStatus
    (defaultSystem.rules.flatMap fun r => evalRule frameOverloadedCpu "server-1" r)
    frameOverloadedCpu = ServerStatus.overloaded
  norm_num [determineServerStatus, overloadCriteria, hc, hm, List.filter]

theorem find?_key_map_set (l : List (String × List ℚ)) (n m : String) (v : List ℚ)
    (h : m ≠ n) :
    (l.map (fun p => if p.1 = n then (p.1, v) else p)).find? (fun p => p.1 = m) =
      l.find? (fun p => p.1 = m) := by
  induction l with
  | nil => rfl
  | cons p rest ih =>
    simp only [List.map_cons]
    by_cases hp : p.1 = m
    · have hpn : ¬(p.1 = n) := by rw [hp]; exact h
      rw [if_neg hpn]
      rw [List.find?_cons_of_pos _ (by simp [hp]), List.find?_cons_of_pos _ (by simp [hp])]
    · by_cases hpn : p.1 = n
      · rw [if_pos hpn]
        rw [List.find?_cons_of_neg _ (by simp [hp]), List.find?_cons_of_neg _ (by simp [hp])]
        exact ih
      · rw [if_neg hpn]
        rw [List.find?_cons_of_neg _ (by simp [hp]), List.find?_cons_of_neg _ (by simp [hp])]
        exact ih

theorem find?_key_append_other (l : List (String × List ℚ)) (n m : String)
    (v : List ℚ) (h : m ≠ n) :
    (l ++ [(n, v)]).find? (fun p => p.1 = m) = l.find? (fun p => p.1 = m) := by
  induction l with
  | nil =>
    simp only [List.nil_append]
    rw [List.find?_cons_of_neg _ (by simp [Ne.symm h])]
  | cons p rest ih =>
    simp only [List.cons_append]
    by_cases hp : p.1 = m
    · rw [List.find?_cons_of_pos _ (by simp [hp]), List.find?_cons_of_pos _ (by simp [hp])]
    · rw [List.find?_cons_of_neg _ (by simp [hp]), List.find?_cons_of_neg _ (by simp [hp])]
      exact ih

theorem getCol_setCol_ne (f : ServerFrame) (n m : String) (v : List ℚ)
    (h : m ≠ n) : (f.setCol n v).getCol m = f.getCol m := by
  unfold ServerFrame.setCol ServerFrame.getCol
  split
  · dsimp only
    rw [find?_key_map_set f.cols n m v h]
  · dsimp only
    rw [find?_key_append_other f.cols n m v h]

theorem evalRule_mem_rule (f : ServerFrame) (s : String) (rule : AlertRule)
    (a : Alert) (ha : a ∈ evalRule f s rule) :
    a.rule = rule ∧ (f.getCol rule.metric).isSome := by
  unfold evalRule at ha
  cases hg : f.getCol rule.metric with
  | none => rw [hg] at ha; simp at ha
  | some d =>
    simp only [hg] at ha
    refine ⟨?_, by simp [hg]⟩
    split_ifs at ha <;>
      repeat
        first
        | (rw [List.mem_singleton] at ha; subst ha; rfl)
        | exact absurd ha (List.not_mem_nil _)
        | split at ha
        | dsimp only at ha

/-- C7, counterexample: `analyze_server_alerts` called on a non-empty
frame holding only a `cpu_usage` column crashes — synthesizing the
`disk_usage` column unconditionally reads the absent `memory_usage`
column, raising KeyError (modelled `none`) — contradicting the claim that
no classification call fails on missing metrics. -/
theorem C7_counterexample :
    analyze_server_alerts [0] [0] [0] frameCpuUsageOnly "server-1" [] (1/5) (4/5) =
      none := by
  rfl

/-- C7 (amended): in `AlertSystem.analyze_server_status` a rule whose
metric is absent from the window is silently excluded — every alert in
the returned list names a metric that is present in the frame — and the
call always returns a result.  But `analyze_server_alerts` is not
crash-free on missing metrics: on a non-empty frame whose `memory_usage`
and `disk_usage` columns are absent it raises KeyError (modelled `none`)
while synthesizing `disk_usage`. -/
theorem C7_theorem :
    (∀ (f : ServerFrame) (s : String) (a : Alert),
      a ∈ (defaultSystem.analyze_server_status f s).1.alerts →
      (f.getCol a.rule.metric).isSome) ∧
    (∀ (rReady rLat rNorm : List ℚ) (f : ServerFrame) (s : String)
      (custom : List (String × ℚ)) (tpo tpi : ℚ), f.isEmpty = false →
      f.getCol "memory_usage" = none → f.getCol "disk_usage" = none →
      analyze_server_alerts rReady rLat rNorm f s custom tpo tpi = none) := by
  constructor
  · intro f s a ha
    by_cases he : f.isEmpty
    · unfold AlertSystem.analyze_server_status at ha
      rw [if_pos he] at ha
      simp at ha
    · rw [analyze_nonempty defaultSystem f s (by simpa using he)] at ha
      obtain ⟨r, hr, har⟩ := List.mem_flatMap.mp ha
      obtain ⟨hrule, hsome⟩ := evalRule_mem_rule f s r a har
      rw [hrule]
      exact hsome
  · intro rReady rLat rNorm f s custom tpo tpi he hmem hdisk
    have he2 : f.timestamp.isEmpty = false := he
    simp only [analyze_server_alerts, ServerFrame.isEmpty, he2, Bool.false_eq_true,
      if_false]
    set g1 := if (f.getCol "cpu_ready_summation").isSome then f
      else f.setCol "cpu_ready_summation" rReady with hg1
    have hm1 : g1.getCol "memory_usage" = none := by
      rw [hg1]
      split
      · exact hmem
      · rw [getCol_setCol_ne _ _ _ _ (by decide)]
        exact hmem
    have hd1 : g1.getCol "disk_usage" = none := by
      rw [hg1]
      split
      · exact hdisk
      · rw [getCol_setCol_ne _ _ _ _ (by decide)]
        exact hdisk
    set g2 := if (g1.getCol "disk_latency").isSome then g1
      else g1.setCol "disk_latency" rLat with hg2
    have hm2 : g2.getCol "memory_usage" = none := by
      rw [hg2]
      split
      · exact hm1
      · rw [getCol_setCol_ne _ _ _ _ (by decide)]
        exact hm1
    have hd2 : g2.getCol "disk_usage" = none := by
      rw [hg2]
      split
      · exact hd1
      · rw [getCol_setCol_ne _ _ _ _ (by decide)]
        exact hd1
    rw [hd2]
    simp only [Option.isSome_none, Bool.false_eq_true, if_false, hm2]
    rfl

theorem C7_witness :
    ((defaultSystem.analyze_server_status frameAllIdle "srv").1.alerts.all
      (fun a => (frameAllIdle.getCol a.rule.metric).isSome)) = true ∧
    analyze_server_alerts [3] [7] [1] frameCpuUsageOnly "srv" [] (1/5) (4/5) = none := by
  constructor
  · rw [List.all_eq_true]
    intro a ha
    have := C7_theorem.1 frameAllIdle "srv" a (by simpa using ha)
    simpa using this
  · exact C7_theorem.2 [3] [7] [1] frameCpuUsageOnly "srv" [] (1/5) (4/5)
      (by decide) (by decide) (by decide)
